import Mathlib

/-!
Verification of the BLAS/LAPACK dependency-resolution logic of
`mesonbuild/dependencies/blas_lapack.py`.

The Python code is shallowly embedded: each method becomes a pure Lean
function, the mutable dependency object becomes an explicit `DepState`
that is threaded through, the compiler/linker probes (an external
collaborator) become fields of an `Env` record of functions, and Python
exceptions become an `Except PyError` result.
-/

namespace BlasLapack

/-- Errors the Python code can raise.  `mesonException` embeds
`mesonlib.MesonException` (the user/configuration error class),
`mesonBugException` embeds `mesonlib.MesonBugException` (an internal
"this is a Meson bug" error), and the last two embed Python runtime
errors (`UnboundLocalError` for reading a never-assigned local,
`NameError` for an undefined global such as the never-imported
`subprocess`). -/
inductive PyError where
  | mesonException (msg : String)
  | mesonBugException (msg : String)
  | unboundLocalError (name : String)
  | nameError (name : String)
deriving Repr, DecidableEq

/-- The fields `parse_modules` stores on the dependency object:
`self.interface` (a string: `""` when no interface token was given,
otherwise `"lp64"` or `"ilp64"`) and the three capability booleans. -/
structure ModuleSet where
  interface : String
  needs_cblas : Bool
  needs_lapack : Bool
  needs_lapacke : Bool
deriving Repr, DecidableEq

/-- Python `str.startswith(pre)`. -/
def py_startswith (s pre : String) : Bool := pre.toList.isPrefixOf s.toList

/-- Python `str.split(' ')` on a list of characters: split at every
single space, keeping empty pieces. -/
def splitSpaces : List Char → List (List Char)
  | [] => [[]]
  | c :: rest =>
    let r := splitSpaces rest
    if c == ' ' then [] :: r
    else
      match r with
      | [] => [[c]]
      | h :: t => (c :: h) :: t

/-- Python `str.split(' ')`. -/
def py_split_space (s : String) : List String :=
  (splitSpaces s.toList).map (fun cs => String.mk cs)

/-- The list `valid_modules` from `BLASLAPACKMixin.parse_modules`.  Note the
space after the colon in the two interface tokens: this is exactly the
list the source compares against. -/
def valid_modules : List String :=
  ["interface: lp64", "interface: ilp64", "cblas", "lapack", "lapacke"]

/-- Embeds `BLASLAPACKMixin.parse_modules`: reject the first token not in
`valid_modules`, reject more than one `interface`-prefixed token,
otherwise record the interface value (second word of the token) and the
three capability booleans. -/
def parse_modules (modules : List String) : Except PyError ModuleSet :=
  match modules.find? (fun m => !(valid_modules.contains m)) with
  | some m => .error (.mesonException ("Unknown modules argument: " ++ m))
  | none =>
    if (modules.filter (fun s => py_startswith s "interface")).length > 1 then
      .error (.mesonException
        ("Only one interface must be specified, found: " ++
          String.intercalate ", "
            (modules.filter (fun s => py_startswith s "interface"))))
    else
      .ok ⟨(match modules.filter (fun s => py_startswith s "interface") with
            | [] => ""
            | x :: _ => (py_split_space x).getD 1 ""),
           modules.contains "cblas", modules.contains "lapack",
           modules.contains "lapacke"⟩

/-- The suffix choice in `BLASLAPACKMixin.check_symbols`:
`'' if self.interface == 'lp64' else '64_'`.  In particular every
interface value other than the exact string `"lp64"` (including the
empty default) gets the ILP64 suffix. -/
def symbol_suffix (interface : String) : String :=
  if interface == "lp64" then "" else "64_"

/-- The unsuffixed symbol list built at the top of `check_symbols`. -/
def check_symbols_list (ms : ModuleSet) : List String :=
  let symbols := ["dgemm_"]
  let symbols := if ms.needs_cblas then symbols ++ ["cblas_dgemm"] else symbols
  let symbols := if ms.needs_lapack then symbols ++ ["zungqr_"] else symbols
  if ms.needs_lapacke then symbols ++ ["LAPACKE_zungqr"] else symbols

/-- The symbols `check_symbols` actually probes: each base symbol with
the variant suffix appended. -/
def suffixed_symbols (ms : ModuleSet) : List String :=
  (check_symbols_list ms).map (fun s => s ++ symbol_suffix ms.interface)

/-- The C translation unit synthesized by `check_symbols`. -/
def blas_symbol_code (ms : ModuleSet) : String :=
  let symbols := check_symbols_list ms
  let suffix := symbol_suffix ms.interface
  let prototypes := String.join
    (symbols.map (fun s => "void " ++ s ++ suffix ++ "();\n"))
  let calls := String.intercalate "  "
    (symbols.map (fun s => s ++ suffix ++ "();\n"))
  prototypes ++ "int main(int argc, const char *argv[])\n" ++
    "\x7b\n" ++ "  " ++ calls ++ "  return 0;\n" ++ "\x7d"

/-- The external compiler/filesystem probes (`self.clib_compiler`, the
machine-file free functions, `os.name`).  Each field is one capability
the Python code consumes. -/
structure Env where
  find_library : String → List String → Option (List String)
  has_header : String → List String → Bool
  links : String → List String → Bool
  path_parent : String → String
  get_define : String → String
  find_framework : String → Option (List String)
  os_name : String

/-- An environment in which every probe fails and every define is empty. -/
def trivialEnv : Env :=
  { find_library := fun _ _ => none
    has_header := fun _ _ => false
    links := fun _ _ => false
    path_parent := fun _ => ""
    get_define := fun _ => ""
    find_framework := fun _ => none
    os_name := "posix" }

/-- Embeds `BLASLAPACKMixin.check_symbols`: synthesize the probe program and
ask the compiler to link it with the given extra args. -/
def check_symbols (env : Env) (ms : ModuleSet) (compile_args : List String) : Bool :=
  env.links (blas_symbol_code ms) compile_args

/-- The mutable state of a dependency object that the detection code
reads and writes: `self.is_found`, `self.link_args`,
`self.compile_args`, `self.version`. -/
structure DepState where
  is_found : Bool
  link_args : List String
  compile_args : List String
  version : Option String
deriving Repr, DecidableEq

/-- The state right after `SystemDependency.__init__`. -/
def initState : DepState := ⟨false, [], [], none⟩

/-- The candidate library names chosen at the top of
`OpenBLASSystemDependency.detect`.  `none` models the fact that for any
other interface value (in particular the `""` default) neither branch
assigns `libnames`, so the following `for` loop raises
`UnboundLocalError`. -/
def openblas_libnames (interface : String) : Option (List String) :=
  if interface == "lp64" then some ["openblas"]
  else if interface == "ilp64" then some ["openblas64", "openblas_ilp64", "openblas"]
  else none

/-- One loop iteration of `OpenBLASSystemDependency.detect` succeeds on
a candidate name iff the library is located, the `openblas_config.h`
header check passes, and `check_symbols` accepts the link args. -/
def candidate_ok (env : Env) (ms : ModuleSet) (lib_dirs inc_dirs : List String)
    (name : String) : Bool :=
  match env.find_library name lib_dirs with
  | none => false
  | some link_arg =>
    env.has_header "openblas_config.h" (inc_dirs.map (fun d => "-I" ++ d)) &&
      check_symbols env ms link_arg

/-- The state update performed when a candidate passes all three checks:
set `is_found`, extend `link_args` (either `-L<parent> -l<name>` when
explicit directories were supplied, or the locator's raw args) and
append the `-I` args to `compile_args`. -/
def found_update (env : Env) (_ms : ModuleSet) (lib_dirs inc_dirs : List String)
    (name : String) (st : DepState) : DepState :=
  let link_arg := (env.find_library name lib_dirs).getD []
  let incdir_args := inc_dirs.map (fun d => "-I" ++ d)
  { st with
    is_found := true
    link_args := st.link_args ++
      (if lib_dirs.isEmpty then link_arg
       else ["-L" ++ env.path_parent (link_arg.headD ""), "-l" ++ name])
    compile_args := st.compile_args ++ incdir_args }

/-- The `for libname in libnames` loop of
`OpenBLASSystemDependency.detect`. -/
def detect_loop (env : Env) (ms : ModuleSet) (lib_dirs inc_dirs : List String) :
    List String → DepState → DepState
  | [], st => st
  | name :: rest, st =>
    match env.find_library name lib_dirs with
    | none => detect_loop env ms lib_dirs inc_dirs rest st
    | some link_arg =>
      if env.has_header "openblas_config.h" (inc_dirs.map (fun d => "-I" ++ d)) then
        if check_symbols env ms link_arg then
          { st with
            is_found := true
            link_args := st.link_args ++
              (if lib_dirs.isEmpty then link_arg
               else ["-L" ++ env.path_parent (link_arg.headD ""), "-l" ++ name])
            compile_args := st.compile_args ++ inc_dirs.map (fun d => "-I" ++ d) }
        else detect_loop env ms lib_dirs inc_dirs rest st
      else detect_loop env ms lib_dirs inc_dirs rest st

/-- Embeds `OpenBLASSystemDependency.detect`: pick the candidate names for the
interface (raising `UnboundLocalError` for an interface value with no
branch) and run the loop. -/
def OpenBLASSystemDependency_detect (env : Env) (ms : ModuleSet)
    (lib_dirs inc_dirs : List String) (st : DepState) : Except PyError DepState :=
  match openblas_libnames ms.interface with
  | none => .error (.unboundLocalError "libnames")
  | some libnames => .ok (detect_loop env ms lib_dirs inc_dirs libnames st)

/-- The two machine-file properties, `none` when the key is absent from
the `[properties]` mapping. -/
structure MachineProps where
  openblas_includedir : Option String
  openblas_librarydir : Option String
deriving Repr, DecidableEq

/-- Python truthiness of an optional string property: present and
nonempty. -/
def truthy : Option String → Bool
  | none => false
  | some s => !(s == "")

/-- Embeds `pathlib.Path(p).is_absolute()` on POSIX. -/
def is_absolute (p : String) : Bool := py_startswith p "/"

def openblas_abs_msg : String :=
  "Paths given for openblas_includedir and openblas_librarydir in machine file must be absolute"

def openblas_both_msg : String :=
  "Both openblas_includedir *and* openblas_librarydir have to be set in your machine file (one is not enough)"

def openblas_bug_msg : String :=
  "issue with openblas dependency detection, should not be possible to reach this else clause"

/-- Embeds `OpenBLASSystemDependency.detect_openblas_machine_file`: the
decision on the two properties, then `self.detect([libdir], [incdir])`.
Note the asymmetry with the caller: `__init__` enters this function on
key *presence*, but the branches here test Python *truthiness*, so a
present-but-empty value falls into the `else` branch the code claims is
unreachable. -/
def detect_openblas_machine_file (env : Env) (ms : ModuleSet)
    (props : MachineProps) (st : DepState) : Except PyError DepState :=
  let incdir := props.openblas_includedir
  let libdir := props.openblas_librarydir
  if truthy incdir && truthy libdir then
    let st := { st with is_found := true }
    if !(is_absolute (incdir.getD "")) || !(is_absolute (libdir.getD "")) then
      .error (.mesonException openblas_abs_msg)
    else
      OpenBLASSystemDependency_detect env ms [libdir.getD ""] [incdir.getD ""] st
  else if truthy incdir || truthy libdir then
    .error (.mesonException openblas_both_msg)
  else
    .error (.mesonBugException openblas_bug_msg)

/-- Maximal run of decimal digits at the front of the input, with the
remainder. -/
def takeDigits : List Char → List Char × List Char
  | [] => ([], [])
  | c :: cs =>
    if c.isDigit then
      let (d, r) := takeDigits cs
      (c :: d, r)
    else ([], c :: cs)

/-- Greedily consume `(\.\d+)+` groups; the fuel (instantiated with the
input length, each group consuming at least two characters) keeps the
recursion structural. -/
def takeDotGroupsAux : Nat → List Char → List Char
  | 0, _ => []
  | _ + 1, [] => []
  | fuel + 1, c :: cs =>
    if c == '.' then
      let (d, r) := takeDigits cs
      if d.isEmpty then [] else c :: (d ++ takeDotGroupsAux fuel r)
    else []

/-- Attempt to match the regular expression `\d+(?:\.\d+)+` anchored at
the front of the input, returning the (greedy) matched text. -/
def matchVersionAt (cs : List Char) : Option (List Char) :=
  let (d, r) := takeDigits cs
  if d.isEmpty then none
  else
    let g := takeDotGroupsAux r.length r
    if g.isEmpty then none else some (d ++ g)

/-- Embeds the Python search `re.search` for the pattern of one or
more digit groups separated by dots: the leftmost match, scanning
start positions left to right. -/
def searchVersion : List Char → Option (List Char)
  | [] => none
  | c :: cs =>
    match matchVersionAt (c :: cs) with
    | some m => some m
    | none => searchVersion cs

/-- The `re.search` + `m.group(0)` part of `detect_openblas_version`:
`none` models the Python `return None` on a failed search. -/
def re_search_version (v : String) : Option String :=
  (searchVersion v.toList).map (fun cs => String.mk cs)

/-- Embeds `OpenBLASSystemDependency.detect_openblas_version`: read the
`OPENBLAS_VERSION` define and extract a dotted version from it. -/
def detect_openblas_version (env : Env) : Option String :=
  re_search_version (env.get_define "OPENBLAS_VERSION")

/-- The tail of `OpenBLASSystemDependency.__init__`:
`if self.is_found: self.version = self.detect_openblas_version()`. -/
def openblas_version_step (env : Env) (st : DepState) : DepState :=
  if st.is_found then { st with version := detect_openblas_version env } else st

/-- Embeds `OpenBLASSystemDependency.__init__` after `parse_modules`: run the
machine-file resolver when either property key is present, otherwise
(or when that left `is_found` unset — which cannot happen) fall back to
the automatic `detect([])`, then record the version.  The returned
`Bool` instruments whether the automatic-detection branch ran. -/
def OpenBLASSystemDependency_init (env : Env) (modules : List String)
    (props : MachineProps) : Except PyError (DepState × Bool) :=
  match parse_modules modules with
  | .error e => .error e
  | .ok ms =>
    let step1 : Except PyError DepState :=
      if props.openblas_includedir.isSome || props.openblas_librarydir.isSome then
        detect_openblas_machine_file env ms props initState
      else .ok initState
    match step1 with
    | .error e => .error e
    | .ok st1 =>
      let step2 : Except PyError (DepState × Bool) :=
        if st1.is_found then .ok (st1, false)
        else
          match OpenBLASSystemDependency_detect env ms [] [] st1 with
          | .error e => .error e
          | .ok st => .ok (st, true)
      match step2 with
      | .error e => .error e
      | .ok (st2, auto) => .ok (openblas_version_step env st2, auto)

/-- Embeds `PkgConfigDependency.__init__` (external collaborator): a metadata
lookup keyed by package name that either yields compile and link args
(found) or nothing. -/
def pkgconfig_super_init (pkg : String → Option (List String × List String))
    (name : String) : DepState :=
  match pkg name with
  | some (cargs, largs) => ⟨true, largs, cargs, none⟩
  | none => ⟨false, [], [], none⟩

/-- Embeds `OpenBLASPkgConfigDependency.__init__`: metadata lookup, then
`parse_modules`, then clear `is_found` when `check_symbols` rejects the
metadata-provided link args. -/
def OpenBLASPkgConfigDependency_init (env : Env)
    (pkg : String → Option (List String × List String)) (name : String)
    (modules : List String) : Except PyError DepState :=
  let st := pkgconfig_super_init pkg name
  match parse_modules modules with
  | .error e => .error e
  | .ok ms =>
    .ok (if !(check_symbols env ms st.link_args) then { st with is_found := false } else st)

/-- Embeds `OpenBLASCMakeDependency.__init__`: same post-hoc verification gate
over an external build-config lookup. -/
def OpenBLASCMakeDependency_init (env : Env)
    (cmake : String → Option (List String × List String))
    (modules : List String) : Except PyError DepState :=
  let st := pkgconfig_super_init cmake "OpenBLAS"
  match parse_modules modules with
  | .error e => .error e
  | .ok ms =>
    .ok (if !(check_symbols env ms st.link_args) then { st with is_found := false } else st)

/-- Embeds `NetlibPkgConfigDependency.__init__`: metadata lookup for `'blas'`
and `parse_modules` only — no `check_symbols` call at all. -/
def NetlibPkgConfigDependency_init (_env : Env)
    (pkg : String → Option (List String × List String))
    (modules : List String) : Except PyError DepState :=
  let st := pkgconfig_super_init pkg "blas"
  match parse_modules modules with
  | .error e => .error e
  | .ok _ => .ok st

/-- Embeds `AccelerateSystemDependency.check_macOS_recent_enough`: the guard
compares `os.name` against `'darwin'`; when that comparison succeeds
the body would call the never-imported `subprocess` module and raise
`NameError`, and otherwise the function returns `False`. -/
def check_macOS_recent_enough (env : Env) : Except PyError Bool :=
  if env.os_name == "darwin" then .error (.nameError "subprocess")
  else .ok false

/-- Embeds `AccelerateSystemDependency.detect`: framework + umbrella-header
lookup; on success set `is_found` and add the new-interface define,
plus the ILP64 define exactly for the `'ilp64'` interface.  No symbol
verification. -/
def AccelerateSystemDependency_detect (env : Env) (ms : ModuleSet)
    (st : DepState) : DepState :=
  let link_arg := env.find_framework "Accelerate"
  let found_header := env.has_header "<Accelerate/Accelerate.h>" []
  if link_arg.isSome && found_header then
    let st := { st with
      is_found := true
      compile_args := st.compile_args ++ ["-DACCELERATE_NEW_LAPACK"] }
    if ms.interface == "ilp64" then
      { st with compile_args := st.compile_args ++ ["-DACCELERATE_LAPACK_ILP64"] }
    else st
  else st

/-- Embeds `AccelerateSystemDependency.__init__`: parse modules, then return
before any discovery when the macOS recency gate fails.  The returned
`Bool` instruments whether `detect` was invoked. -/
def AccelerateSystemDependency_init (env : Env) (modules : List String) :
    Except PyError (DepState × Bool) :=
  match parse_modules modules with
  | .error e => .error e
  | .ok ms =>
    match check_macOS_recent_enough env with
    | .error e => .error e
    | .ok false => .ok (initState, false)
    | .ok true => .ok (AccelerateSystemDependency_detect env ms initState, true)

/-! ### Helper lemmas -/

/-- The detection loop is exactly "first candidate passing all three
checks wins": it returns the state untouched when no candidate
qualifies, and applies `found_update` for the first qualifying name. -/
theorem detect_loop_eq_find? (env : Env) (ms : ModuleSet)
    (lib_dirs inc_dirs : List String) (names : List String) (st : DepState) :
    detect_loop env ms lib_dirs inc_dirs names st =
      match names.find? (candidate_ok env ms lib_dirs inc_dirs) with
      | none => st
      | some n => found_update env ms lib_dirs inc_dirs n st := by
  induction names with
  | nil => rfl
  | cons n rest ih =>
    cases hfl : env.find_library n lib_dirs with
    | none =>
      have hcand : candidate_ok env ms lib_dirs inc_dirs n = false := by
        simp [candidate_ok, hfl]
      rw [List.find?_cons_of_neg _ (by simp [hcand])]
      simpa [detect_loop, hfl] using ih
    | some link_arg =>
      by_cases hh : env.has_header "openblas_config.h"
          (inc_dirs.map (fun d => "-I" ++ d)) = true
      · by_cases hc : check_symbols env ms link_arg = true
        · have hcand : candidate_ok env ms lib_dirs inc_dirs n = true := by
            simp [candidate_ok, hfl, hh, hc]
          rw [List.find?_cons_of_pos _ hcand]
          simp [detect_loop, hfl, hh, hc, found_update]
        · have hcand : candidate_ok env ms lib_dirs inc_dirs n = false := by
            simp [candidate_ok, hfl, hh]
            exact Bool.eq_false_iff.mpr hc
          rw [List.find?_cons_of_neg _ (by simp [hcand])]
          simp only [detect_loop, hfl]
          rw [if_pos hh, if_neg hc]
          exact ih
      · have hcand : candidate_ok env ms lib_dirs inc_dirs n = false := by
          simp [candidate_ok, hfl]
          intro h
          exact absurd h hh
        rw [List.find?_cons_of_neg _ (by simp [hcand])]
        simp only [detect_loop, hfl]
        rw [if_neg hh]
        exact ih

/-- The detection loop never clears `is_found`. -/
theorem detect_loop_is_found_mono (env : Env) (ms : ModuleSet)
    (lib_dirs inc_dirs names : List String) (st : DepState)
    (h : st.is_found = true) :
    (detect_loop env ms lib_dirs inc_dirs names st).is_found = true := by
  rw [detect_loop_eq_find?]
  cases names.find? (candidate_ok env ms lib_dirs inc_dirs) with
  | none => exact h
  | some n => simp [found_update]

/-- If no suffix of the input matches the version pattern, the leftmost
search comes up empty. -/
theorem searchVersion_eq_none (cs : List Char)
    (h : ∀ t ∈ cs.tails, matchVersionAt t = none) : searchVersion cs = none := by
  induction cs with
  | nil => rfl
  | cons c cs ih =>
    have h1 : matchVersionAt (c :: cs) = none := h _ (by simp)
    have h2 : searchVersion cs = none := by
      refine ih (fun t ht => h t ?_)
      rw [List.tails_cons]
      exact List.mem_cons_of_mem _ ht
    simp [searchVersion, h1, h2]

/-! ### Claim theorems -/

/-- C1: the claim says a request with zero interface tokens resolves to
the LP64 default (empty symbol suffix, `["openblas"]` candidate list).
The code instead leaves `self.interface = ""`: `parse_modules []`
yields the empty interface, `check_symbols` then picks the ILP64 suffix
`"64_"` (not `""`), and `detect` assigns no `libnames` for the empty
interface, so a full system-dependency construction with no interface
token crashes with `UnboundLocalError` instead of probing the LP64
candidate list. -/
theorem C1_interface_default_bug :
    parse_modules [] = .ok ⟨"", false, false, false⟩ ∧
    symbol_suffix "" = "64_" ∧
    symbol_suffix "" ≠ "" ∧
    openblas_libnames "" = none ∧
    OpenBLASSystemDependency_init trivialEnv [] ⟨none, none⟩ =
      .error (.unboundLocalError "libnames") :=
  ⟨rfl, rfl, by decide, rfl, rfl⟩

/-- C2: for every module set the Symbol Verifier's generated list is
`dgemm_`, then `cblas_dgemm` if cblas is requested, then `zungqr_` if
lapack is, then `LAPACKE_zungqr` if lapacke is, each with the suffix
`""` (LP64) resp. `"64_"` (ILP64) appended; in particular the all-false
LP64 set gives exactly `["dgemm_"]` and the cblas-only ILP64 set gives
exactly `["dgemm_64_", "cblas_dgemm64_"]`. -/
theorem C2_symbol_verifier_list (c l k : Bool) :
    suffixed_symbols ⟨"lp64", c, l, k⟩ =
      ["dgemm_"] ++ (if c then ["cblas_dgemm"] else []) ++
        (if l then ["zungqr_"] else []) ++ (if k then ["LAPACKE_zungqr"] else []) ∧
    suffixed_symbols ⟨"ilp64", c, l, k⟩ =
      (["dgemm_"] ++ (if c then ["cblas_dgemm"] else []) ++
        (if l then ["zungqr_"] else []) ++
        (if k then ["LAPACKE_zungqr"] else [])).map (fun s => s ++ "64_") ∧
    suffixed_symbols ⟨"lp64", false, false, false⟩ = ["dgemm_"] ∧
    suffixed_symbols ⟨"ilp64", true, false, false⟩ = ["dgemm_64_", "cblas_dgemm64_"] := by
  cases c <;> cases l <;> cases k <;> exact ⟨by decide, by decide, by decide, by decide⟩

/-- C4: the machine-file decision table.  The first conjunct is the
failing input: a mapping where `openblas_includedir` is present with
the empty-string value and `openblas_librarydir` is absent — exactly
one override is set, but instead of the claimed configuration error the
code raises `MesonBugException` from the else-branch whose own message
says it "should not be possible to reach".  The remaining conjuncts
evaluate the table's four rows on nonempty values: one-sided overrides
and relative paths fail with `MesonException` (the configuration-error
class), both-absolute overrides skip automatic detection (instrumented
`Bool` is `false`), absent overrides fall through to it (`true`). -/
theorem C4_machine_file_table :
    OpenBLASSystemDependency_init trivialEnv ["interface: lp64"] ⟨some "", none⟩ =
      .error (.mesonBugException openblas_bug_msg) ∧
    OpenBLASSystemDependency_init trivialEnv ["interface: lp64"] ⟨some "/inc", none⟩ =
      .error (.mesonException openblas_both_msg) ∧
    OpenBLASSystemDependency_init trivialEnv ["interface: lp64"] ⟨none, some "/lib"⟩ =
      .error (.mesonException openblas_both_msg) ∧
    OpenBLASSystemDependency_init trivialEnv ["interface: lp64"]
        ⟨some "relative/inc", some "/lib"⟩ =
      .error (.mesonException openblas_abs_msg) ∧
    OpenBLASSystemDependency_init trivialEnv ["interface: lp64"]
        ⟨some "/inc", some "relative/lib"⟩ =
      .error (.mesonException openblas_abs_msg) ∧
    OpenBLASSystemDependency_init trivialEnv ["interface: lp64"]
        ⟨some "/inc", some "/lib"⟩ =
      .ok (⟨true, [], [], none⟩, false) ∧
    OpenBLASSystemDependency_init trivialEnv ["interface: lp64"] ⟨none, none⟩ =
      .ok (⟨false, [], [], none⟩, true) :=
  ⟨rfl, rfl, rfl, rfl, rfl, rfl, rfl⟩

/-- C3: the ordered candidate list is `[openblas64, openblas_ilp64,
openblas]` for ILP64 and `[openblas]` for LP64; the detection loop
returns the state built from the *first* candidate for which library
location, the `openblas_config.h` header check and symbol verification
all succeed (and leaves the state untouched when none does); and a
candidate whose link args are found and whose header check passes but
which fails symbol verification does not count as found — the loop
advances to the next candidate name. -/
theorem C3_system_probe_candidates :
    openblas_libnames "ilp64" = some ["openblas64", "openblas_ilp64", "openblas"] ∧
    openblas_libnames "lp64" = some ["openblas"] ∧
    (∀ env ms lib_dirs inc_dirs (names : List String) st,
      names.find? (candidate_ok env ms lib_dirs inc_dirs) = none →
        detect_loop env ms lib_dirs inc_dirs names st = st) ∧
    (∀ env ms lib_dirs inc_dirs (names : List String) st n,
      names.find? (candidate_ok env ms lib_dirs inc_dirs) = some n →
        detect_loop env ms lib_dirs inc_dirs names st =
          found_update env ms lib_dirs inc_dirs n st) ∧
    (∀ env ms lib_dirs inc_dirs n (rest : List String) st link_arg,
      env.find_library n lib_dirs = some link_arg →
      env.has_header "openblas_config.h" (inc_dirs.map (fun d => "-I" ++ d)) = true →
      check_symbols env ms link_arg = false →
        detect_loop env ms lib_dirs inc_dirs (n :: rest) st =
          detect_loop env ms lib_dirs inc_dirs rest st) := by
  refine ⟨rfl, rfl, ?_, ?_, ?_⟩
  · intro env ms lib_dirs inc_dirs names st h
    rw [detect_loop_eq_find?, h]
  · intro env ms lib_dirs inc_dirs names st n h
    rw [detect_loop_eq_find?, h]
  · intro env ms lib_dirs inc_dirs n rest st link_arg hfl hh hc
    simp only [detect_loop, hfl]
    rw [if_pos hh, if_neg (by simp [hc])]

/-- A concrete probe environment for the C3 witness: only
`openblas64` is on disk, the header is present, but no link ever
succeeds (so symbol verification fails). -/
def envNoSymbols : Env :=
  { trivialEnv with
    find_library := fun n _ => if n == "openblas64" then some ["-lopenblas64"] else none
    has_header := fun _ _ => true
    links := fun _ _ => false }

/-- Witness for C3 at a concrete input: under `envNoSymbols` the first
ILP64 candidate is located and passes the header check but fails symbol
verification, and the loop advances past it. -/
theorem C3_system_probe_candidates_witness :
    detect_loop envNoSymbols ⟨"ilp64", false, false, false⟩ [] []
        ["openblas64", "openblas_ilp64", "openblas"] initState =
      detect_loop envNoSymbols ⟨"ilp64", false, false, false⟩ [] []
        ["openblas_ilp64", "openblas"] initState :=
  C3_system_probe_candidates.2.2.2.2 envNoSymbols ⟨"ilp64", false, false, false⟩
    [] [] "openblas64" ["openblas_ilp64", "openblas"] initState
    ["-lopenblas64"] rfl rfl rfl

/-- C5: when both machine-file overrides are present, nonempty and
absolute, the System dependency reports `found = true` even in an
environment where every symbol-verification link fails: `is_found` is
set before the override-directed `detect` runs and is never cleared
when no candidate verifies. -/
theorem C5_machine_file_found_despite_failure (env : Env) (i l : String)
    (modules : List String) (ms : ModuleSet)
    (_hlinks : ∀ code args, env.links code args = false)
    (hi : i ≠ "") (hl : l ≠ "")
    (hia : is_absolute i = true) (hla : is_absolute l = true)
    (hparse : parse_modules modules = .ok ms)
    (hiface : ms.interface = "lp64" ∨ ms.interface = "ilp64") :
    (OpenBLASSystemDependency_init env modules ⟨some i, some l⟩).toOption.map
        (fun p => p.1.is_found) = some true := by
  have hnames : ∃ names, openblas_libnames ms.interface = some names := by
    rcases hiface with h | h <;> rw [h] <;> exact ⟨_, rfl⟩
  rcases hnames with ⟨names, hnames⟩
  have htruthy_i : truthy (some i) = true := by simp [truthy, hi]
  have htruthy_l : truthy (some l) = true := by simp [truthy, hl]
  have hdet :
      detect_openblas_machine_file env ms ⟨some i, some l⟩ initState =
        .ok (detect_loop env ms [l] [i] names { initState with is_found := true }) := by
    simp only [detect_openblas_machine_file, htruthy_i, htruthy_l, Bool.and_self,
      if_true, Option.getD_some, hia, hla, Bool.not_true, Bool.or_self,
      Bool.false_eq_true, if_false, OpenBLASSystemDependency_detect, hnames]
  have hfound :
      (detect_loop env ms [l] [i] names { initState with is_found := true }).is_found
        = true :=
    detect_loop_is_found_mono env ms [l] [i] names _ rfl
  simp only [OpenBLASSystemDependency_init, hparse, Option.isSome_some, Bool.or_self,
    if_true, hdet, hfound, openblas_version_step]
  simp [Except.toOption]

/-- Witness for C5 at a concrete input: both overrides absolute, all
links failing, yet the dependency is found. -/
theorem C5_machine_file_found_witness :
    (OpenBLASSystemDependency_init trivialEnv ["interface: lp64"]
        ⟨some "/inc", some "/lib"⟩).toOption.map (fun p => p.1.is_found) = some true :=
  C5_machine_file_found_despite_failure trivialEnv "/inc" "/lib"
    ["interface: lp64"] ⟨"lp64", false, false, false⟩
    (fun _ _ => rfl) (by decide) (by decide) rfl rfl rfl (Or.inl rfl)

/-- The recognized vocabulary exactly as the spec spells it
(colon with no following space).  Modelled from the spec's words for
comparison with the source's `valid_modules`. -/
def spec_module_vocabulary : List String :=
  ["interface:lp64", "interface:ilp64", "cblas", "lapack", "lapacke"]

/-- C6 counterexample: the token `interface:lp64` — a member of the
claim's vocabulary, and the only `interface`-prefixed token of the
request — is rejected by `parse_modules` as an unknown module, because
the source's `valid_modules` spells the token with a space
(`"interface: lp64"`).  The claim's "fails iff outside the vocabulary"
is therefore false at this input. -/
theorem C6_vocabulary_counterexample :
    spec_module_vocabulary.contains "interface:lp64" = true ∧
    (["interface:lp64"].filter (fun s => py_startswith s "interface")).length = 1 ∧
    valid_modules.contains "interface:lp64" = false ∧
    parse_modules ["interface:lp64"] =
      .error (.mesonException ("Unknown modules argument: " ++ "interface:lp64")) :=
  ⟨by decide, by decide, by decide, rfl⟩

/-- C6 as amended: with the vocabulary spelled as in the source
(`interface: lp64`, `interface: ilp64`, `cblas`, `lapack`, `lapacke`),
`parse_modules` fails iff some token is outside that vocabulary or more
than one `interface`-prefixed token is present; every failure is a
`MesonException` (the configuration-error class); and it is a pure
function of the token list. -/
theorem C6_parse_modules_corrected (modules : List String) :
    ((∃ ms, parse_modules modules = .ok ms) ↔
      (modules.all (fun m => valid_modules.contains m) = true ∧
        (modules.filter (fun s => py_startswith s "interface")).length ≤ 1)) ∧
    (∀ e, parse_modules modules = .error e → ∃ msg, e = PyError.mesonException msg) := by
  constructor
  · constructor
    · rintro ⟨ms, hok⟩
      unfold parse_modules at hok
      split at hok
      · exact absurd hok (by simp)
      · next hf =>
        split at hok
        · exact absurd hok (by simp)
        · next hlen =>
          refine ⟨?_, by omega⟩
          rw [List.all_eq_true]
          intro m hm
          have := List.find?_eq_none.mp hf m hm
          simpa using this
    · rintro ⟨hall, hle⟩
      unfold parse_modules
      split
      · next m hf =>
        exfalso
        have hm : m ∈ modules := List.mem_of_find?_eq_some hf
        have hpm := List.find?_some hf
        have hc := List.all_eq_true.mp hall m hm
        rw [hc] at hpm
        exact absurd hpm (by decide)
      · next hf =>
        rw [if_neg (by omega)]
        exact ⟨_, rfl⟩
  · intro e he
    unfold parse_modules at he
    split at he
    · exact ⟨_, (Except.error.inj he).symm⟩
    · next hf =>
      split at he
      · exact ⟨_, (Except.error.inj he).symm⟩
      · exact absurd he (by simp)

/-- Witness for C6's amended theorem at concrete inputs: a valid
two-token request parses, and the failure on an unknown token is a
`MesonException`. -/
theorem C6_parse_modules_corrected_witness :
    (∃ ms, parse_modules ["interface: ilp64", "cblas"] = .ok ms) ∧
    (∃ msg, PyError.mesonException ("Unknown modules argument: " ++ "bogus") =
      PyError.mesonException msg) :=
  ⟨(C6_parse_modules_corrected ["interface: ilp64", "cblas"]).1.mpr (by decide),
   (C6_parse_modules_corrected ["bogus"]).2
     (.mesonException ("Unknown modules argument: " ++ "bogus")) rfl⟩

/-- A metadata lookup that knows every package, providing no compile
args and the single link flag `-lblas`. -/
def blas_pkg_lookup : String → Option (List String × List String) :=
  fun _ => some ([], ["-lblas"])

/-- C7 counterexample: for the Netlib package-metadata probe the
metadata lookup succeeds (`is_found` set with link args `-lblas`), the
provided link flags fail symbol verification in an environment where no
link ever succeeds — and the dependency still reports `found = true`,
because `NetlibPkgConfigDependency.__init__` never calls
`check_symbols`.  Metadata presence alone does yield a found result
here, contradicting the claim. -/
theorem C7_netlib_counterexample :
    (pkgconfig_super_init blas_pkg_lookup "blas").is_found = true ∧
    check_symbols trivialEnv ⟨"", false, false, false⟩ ["-lblas"] = false ∧
    NetlibPkgConfigDependency_init trivialEnv blas_pkg_lookup [] =
      .ok ⟨true, ["-lblas"], [], none⟩ :=
  ⟨rfl, rfl, rfl⟩

/-- C7 as amended: the OpenBLAS package-metadata probe (and likewise
the CMake build-config probe) does re-validate metadata-provided link
flags and reports `found = false` when symbol verification fails; the
Netlib package-metadata probe performs no symbol verification, so for
it metadata presence alone yields a found result. -/
theorem C7_pkgconfig_verification_corrected (env : Env)
    (pkg : String → Option (List String × List String)) (name : String)
    (modules : List String) (ms : ModuleSet)
    (hparse : parse_modules modules = .ok ms)
    (hfail : check_symbols env ms (pkgconfig_super_init pkg name).link_args = false) :
    OpenBLASPkgConfigDependency_init env pkg name modules =
      .ok { pkgconfig_super_init pkg name with is_found := false } ∧
    OpenBLASCMakeDependency_init env pkg modules =
      (if check_symbols env ms (pkgconfig_super_init pkg "OpenBLAS").link_args then
        .ok (pkgconfig_super_init pkg "OpenBLAS")
       else .ok { pkgconfig_super_init pkg "OpenBLAS" with is_found := false }) ∧
    NetlibPkgConfigDependency_init env pkg modules =
      .ok (pkgconfig_super_init pkg "blas") := by
  refine ⟨?_, ?_, ?_⟩
  · simp [OpenBLASPkgConfigDependency_init, hparse, hfail]
  · by_cases hc : check_symbols env ms (pkgconfig_super_init pkg "OpenBLAS").link_args
    · simp [OpenBLASCMakeDependency_init, hparse, hc]
    · simp [OpenBLASCMakeDependency_init, hparse, hc]
  · simp [NetlibPkgConfigDependency_init, hparse]

/-- Witness for C7's amended theorem at a concrete input: failing
verification clears `is_found` for the OpenBLAS pkg-config probe. -/
theorem C7_pkgconfig_verification_witness :
    OpenBLASPkgConfigDependency_init trivialEnv blas_pkg_lookup "openblas" [] =
      .ok { pkgconfig_super_init blas_pkg_lookup "openblas" with is_found := false } ∧
    OpenBLASCMakeDependency_init trivialEnv blas_pkg_lookup [] =
      (if check_symbols trivialEnv ⟨"", false, false, false⟩
          (pkgconfig_super_init blas_pkg_lookup "OpenBLAS").link_args then
        .ok (pkgconfig_super_init blas_pkg_lookup "OpenBLAS")
       else .ok { pkgconfig_super_init blas_pkg_lookup "OpenBLAS" with is_found := false }) ∧
    NetlibPkgConfigDependency_init trivialEnv blas_pkg_lookup [] =
      .ok (pkgconfig_super_init blas_pkg_lookup "blas") :=
  C7_pkgconfig_verification_corrected trivialEnv blas_pkg_lookup "openblas" []
    ⟨"", false, false, false⟩ rfl rfl

/-- C8: version extraction never fails.  `"OpenBLAS 0.3.21  "` yields
`"0.3.21"` (the leftmost, greedy match of one or more digit groups
separated by dots); an input in which no position matches the
digit-dot pattern yields `none` — the "unknown version" sentinel
(`return None` in the source), not an exception; and the version step
of `OpenBLASSystemDependency.__init__` never turns a found dependency
into a not-found one, whatever the define text was. -/
theorem C8_version_extraction :
    re_search_version "OpenBLAS 0.3.21  " = some "0.3.21" ∧
    (∀ s : String, (∀ t ∈ s.toList.tails, matchVersionAt t = none) →
      re_search_version s = none) ∧
    (∀ env st, st.is_found = true → (openblas_version_step env st).is_found = true) := by
  refine ⟨by decide, ?_, ?_⟩
  · intro s h
    unfold re_search_version
    rw [searchVersion_eq_none s.toList h]
    rfl
  · intro env st h
    simp [openblas_version_step, h]

/-- Witness for C8 at concrete inputs: a define text with no digit-dot
pattern yields the sentinel, and the version step preserves
foundness. -/
theorem C8_version_extraction_witness :
    re_search_version "OpenBLAS development build" = none ∧
    (openblas_version_step trivialEnv ⟨true, [], [], none⟩).is_found = true :=
  ⟨C8_version_extraction.2.1 "OpenBLAS development build" (by decide),
   C8_version_extraction.2.2 trivialEnv ⟨true, [], [], none⟩ rfl⟩

/-- C9: when the Accelerate framework and its umbrella header are both
located, `detect` reports found, unconditionally adds
`-DACCELERATE_NEW_LAPACK`, adds `-DACCELERATE_LAPACK_ILP64` exactly
when the requested interface is `ilp64`, and never invokes symbol
verification (the result is invariant under replacing the link probe,
which `check_symbols` would consume). -/
theorem C9_accelerate_defines (env : Env) (ms : ModuleSet) (st : DepState)
    (link_arg : List String)
    (hf : env.find_framework "Accelerate" = some link_arg)
    (hh : env.has_header "<Accelerate/Accelerate.h>" [] = true) :
    (AccelerateSystemDependency_detect env ms st).is_found = true ∧
    (AccelerateSystemDependency_detect env ms st).compile_args =
      st.compile_args ++ ["-DACCELERATE_NEW_LAPACK"] ++
        (if ms.interface == "ilp64" then ["-DACCELERATE_LAPACK_ILP64"] else []) ∧
    (∀ f, AccelerateSystemDependency_detect { env with links := f } ms st =
      AccelerateSystemDependency_detect env ms st) := by
  refine ⟨?_, ?_, fun f => rfl⟩
  · by_cases hi : (ms.interface == "ilp64") = true <;>
      simp [AccelerateSystemDependency_detect, hf, hh, hi]
  · by_cases hi : (ms.interface == "ilp64") = true <;>
      simp [AccelerateSystemDependency_detect, hf, hh, hi]

/-- A probe environment in which the Accelerate framework and its
umbrella header are available. -/
def accelEnv : Env :=
  { trivialEnv with
    find_framework := fun _ => some ["-Wl,-framework", "-Wl,Accelerate"]
    has_header := fun _ _ => true }

/-- Witness for C9 at a concrete input: an ILP64 request against
`accelEnv` is found with both defines and ignores the link probe. -/
theorem C9_accelerate_defines_witness :
    (AccelerateSystemDependency_detect accelEnv ⟨"ilp64", true, false, false⟩
      initState).is_found = true ∧
    (AccelerateSystemDependency_detect accelEnv ⟨"ilp64", true, false, false⟩
      initState).compile_args =
      initState.compile_args ++ ["-DACCELERATE_NEW_LAPACK"] ++
        (if ("ilp64" == "ilp64") then ["-DACCELERATE_LAPACK_ILP64"] else []) ∧
    (∀ f, AccelerateSystemDependency_detect { accelEnv with links := f }
        ⟨"ilp64", true, false, false⟩ initState =
      AccelerateSystemDependency_detect accelEnv ⟨"ilp64", true, false, false⟩
        initState) :=
  C9_accelerate_defines accelEnv ⟨"ilp64", true, false, false⟩ initState
    ["-Wl,-framework", "-Wl,Accelerate"] rfl rfl

/-- C10: whenever the macOS recency gate reports "not recent enough",
`AccelerateSystemDependency.__init__` stops before discovery: the
result depends on nothing but the parsed modules, `detect` is not
invoked (instrumented `Bool` is `false`), `is_found` is `false` and no
compile defines are added. -/
theorem C10_accelerate_version_gate (env : Env) (modules : List String)
    (h : check_macOS_recent_enough env = .ok false) :
    AccelerateSystemDependency_init env modules =
      (parse_modules modules).map (fun _ => (initState, false)) := by
  unfold AccelerateSystemDependency_init
  cases hp : parse_modules modules with
  | error e => simp [Except.map]
  | ok ms => rw [h]; simp [Except.map]

/-- Witness for C10 at a concrete input: on a `posix` host (the real
`os.name` on macOS) the gate reports false and the dependency is not
found, with no discovery performed. -/
theorem C10_accelerate_version_gate_witness :
    AccelerateSystemDependency_init trivialEnv ["interface: ilp64"] =
      (parse_modules ["interface: ilp64"]).map (fun _ => (initState, false)) :=
  C10_accelerate_version_gate trivialEnv ["interface: ilp64"] rfl

end BlasLapack
